import Mathlib

/-!
Shallow embedding of `src/mainsecretkey.py`, a FastAPI webhook service that
authenticates callers with a shared token, accumulates transaction records in
an in-memory list, and serves read/statistics views.

Modelling choices:
* Python `datetime.now()` is modelled by an ambient clock `clock : Nat → DateTime`
  together with a tick counter threaded through the server state; each call of
  `datetime.now()` in the source reads `clock tick` and increments the tick.
* Each HTTP handler becomes a function from its inputs and the server state to a
  pair `(Except HTTPException response, ServerState)`: raising `HTTPException`
  in Python leaves the module-level `received_transactions` list as mutated so
  far, which the returned state records.
* `transaction.dict()` plus the added keys becomes the flat `StoredTransaction`
  structure (five payload fields, then `received_at`, `batch_id`, `poc_id`).
-/

namespace Webhook

/-- A wall-clock instant, the fields Python's `datetime` exposes to
`isoformat` and `strftime("%Y%m%d_%H%M%S")`. -/
structure DateTime where
  year : Nat
  month : Nat
  day : Nat
  hour : Nat
  minute : Nat
  second : Nat
  microsecond : Nat
deriving DecidableEq

/-- Zero-pad the decimal rendering of `n` on the left to width `w`. -/
def zeroPad (w : Nat) (n : Nat) : String :=
  let s := toString n
  String.mk (List.replicate (w - s.length) '0') ++ s

/-- Python `datetime.isoformat()`: `YYYY-MM-DDTHH:MM:SS`, with `.ffffff`
appended only when the microsecond field is nonzero. -/
def isoformat (d : DateTime) : String :=
  zeroPad 4 d.year ++ "-" ++ zeroPad 2 d.month ++ "-" ++ zeroPad 2 d.day ++ "T" ++
  zeroPad 2 d.hour ++ ":" ++ zeroPad 2 d.minute ++ ":" ++ zeroPad 2 d.second ++
  (if d.microsecond = 0 then "" else "." ++ zeroPad 6 d.microsecond)

/-- Python `datetime.strftime("%Y%m%d_%H%M%S")`, the batch-id format. -/
def strftime_batch (d : DateTime) : String :=
  zeroPad 4 d.year ++ zeroPad 2 d.month ++ zeroPad 2 d.day ++ "_" ++
  zeroPad 2 d.hour ++ zeroPad 2 d.minute ++ zeroPad 2 d.second

/-- FastAPI's `HTTPException(status_code=..., detail=...)`. -/
structure HTTPException where
  status_code : Nat
  detail : String
deriving DecidableEq

/-- Python truthiness of an optional string: `None` and `""` are falsy. -/
def truthy : Option String → Bool
  | none => false
  | some s => !(s = "")

/-- `check_token` (src/mainsecretkey.py:26-32).  `WEBHOOK_TOKEN` is the
configured secret; `x_webhook_token` the presented header (absent = `none`).
Python truthiness: `not WEBHOOK_TOKEN` is true exactly when the secret is the
empty string; `not x_webhook_token` is true when the header is `None` or `""`. -/
def check_token (WEBHOOK_TOKEN : String) (x_webhook_token : Option String) :
    Except HTTPException Unit :=
  if WEBHOOK_TOKEN = "" then
    .error ⟨500, "Server misconfiguration: WEBHOOK_TOKEN missing"⟩
  else if truthy x_webhook_token = false ∨ x_webhook_token ≠ some WEBHOOK_TOKEN then
    .error ⟨401, "Unauthorized"⟩
  else
    .ok ()

/-- The pydantic model `UserTransaction` (src/mainsecretkey.py:34-39): every
field optional with default `None`. -/
structure UserTransaction where
  authorizer_usrnbr : Option Int := none
  creat_usrnbr : Option Int := none
  creat_time : Option String := none
  data : Option String := none
  usrname : Option String := none
deriving DecidableEq

/-- An element of the module-level `received_transactions` list:
`transaction.dict()` (the five payload keys) plus the keys added by the
handlers (`received_at`, optionally `batch_id`, and `poc_id`). -/
structure StoredTransaction where
  authorizer_usrnbr : Option Int
  creat_usrnbr : Option Int
  creat_time : Option String
  data : Option String
  usrname : Option String
  received_at : String
  batch_id : Option String
  poc_id : Nat
deriving DecidableEq

/-- The mutable module state: the `received_transactions` list plus the clock
tick counter (how many `datetime.now()` calls have happened). -/
structure ServerState where
  received_transactions : List StoredTransaction
  tick : Nat
deriving DecidableEq

/-- Response body of `POST /webhook/user-transactions`. -/
structure SingleResponse where
  status : String
  message : String
  poc_id : Nat
  user : Option String
  received_at : String
deriving DecidableEq

/-- `receive_user_transaction` (src/mainsecretkey.py:57-79).  The `try` body
contains no fallible operation in the model, so the `except` branch is dead
here; token failure propagates the `HTTPException` with the state unchanged. -/
def receive_user_transaction (secret : String) (clock : Nat → DateTime)
    (transaction : UserTransaction) (x_webhook_token : Option String)
    (st : ServerState) : Except HTTPException SingleResponse × ServerState :=
  match check_token secret x_webhook_token with
  | .error e => (.error e, st)
  | .ok _ =>
    let received_at := isoformat (clock st.tick)
    let transaction_dict : StoredTransaction :=
      { authorizer_usrnbr := transaction.authorizer_usrnbr
        creat_usrnbr := transaction.creat_usrnbr
        creat_time := transaction.creat_time
        data := transaction.data
        usrname := transaction.usrname
        received_at := received_at
        batch_id := none
        poc_id := st.received_transactions.length + 1 }
    (.ok { status := "success"
           message := "User transaction received successfully"
           poc_id := transaction_dict.poc_id
           user := transaction.usrname
           received_at := transaction_dict.received_at },
     { received_transactions := st.received_transactions ++ [transaction_dict]
       tick := st.tick + 1 })

/-- Response body of `POST /webhook/user-transactions/batch`. -/
structure BatchResponse where
  status : String
  message : String
  batch_id : String
  total_received : Nat
deriving DecidableEq

/-- The `for transaction in transactions` loop of `receive_batch_transactions`
(src/mainsecretkey.py:90-97): arguments are the remaining payloads, the
`received_transactions` list so far, the clock tick, and `received_count`;
returns the final list, tick, and count. -/
def batchLoop (clock : Nat → DateTime) (batch_id : String) :
    List UserTransaction → List StoredTransaction → Nat → Nat →
    List StoredTransaction × Nat × Nat
  | [], received, t, c => (received, t, c)
  | transaction :: rest, received, t, c =>
    let transaction_dict : StoredTransaction :=
      { authorizer_usrnbr := transaction.authorizer_usrnbr
        creat_usrnbr := transaction.creat_usrnbr
        creat_time := transaction.creat_time
        data := transaction.data
        usrname := transaction.usrname
        received_at := isoformat (clock t)
        batch_id := some batch_id
        poc_id := received.length + 1 }
    batchLoop clock batch_id rest (received ++ [transaction_dict]) (t + 1) (c + 1)

/-- `receive_batch_transactions` (src/mainsecretkey.py:81-106), on the path
where no record's processing raises (the loop body is infallible in the pure
model; see `receive_batch_transactions_exc` for the exception boundary). -/
def receive_batch_transactions (secret : String) (clock : Nat → DateTime)
    (transactions : List UserTransaction) (x_webhook_token : Option String)
    (st : ServerState) : Except HTTPException BatchResponse × ServerState :=
  match check_token secret x_webhook_token with
  | .error e => (.error e, st)
  | .ok _ =>
    let batch_id := strftime_batch (clock st.tick)
    let res := batchLoop clock batch_id transactions st.received_transactions
      (st.tick + 1) 0
    (.ok { status := "success"
           message := "Batch of " ++ toString res.2.2 ++
             " transactions received successfully"
           batch_id := batch_id
           total_received := res.1.length },
     { received_transactions := res.1, tick := res.2.1 })

/-- The batch loop with Python's runtime-exception possibility made explicit:
an `Except.error msg` element stands for a payload whose per-record processing
raises (message `msg`) before that record is appended.  On such an element the
loop stops, leaving the records appended so far in place. -/
def batchLoopExc (clock : Nat → DateTime) (batch_id : String) :
    List (Except String UserTransaction) → List StoredTransaction → Nat → Nat →
    Except (String × List StoredTransaction × Nat)
      (List StoredTransaction × Nat × Nat)
  | [], received, t, c => .ok (received, t, c)
  | .error msg :: _, received, t, _ => .error (msg, received, t)
  | .ok transaction :: rest, received, t, c =>
    let transaction_dict : StoredTransaction :=
      { authorizer_usrnbr := transaction.authorizer_usrnbr
        creat_usrnbr := transaction.creat_usrnbr
        creat_time := transaction.creat_time
        data := transaction.data
        usrname := transaction.usrname
        received_at := isoformat (clock t)
        batch_id := some batch_id
        poc_id := received.length + 1 }
    batchLoopExc clock batch_id rest (received ++ [transaction_dict]) (t + 1)
      (c + 1)

/-- `receive_batch_transactions` with its `try`/`except` boundary
(src/mainsecretkey.py:87-106): any exception raised inside the loop is caught
at the whole-call boundary and converted to HTTP 500 with the cause appended
to "Error processing batch: "; records already appended stay appended. -/
def receive_batch_transactions_exc (secret : String) (clock : Nat → DateTime)
    (transactions : List (Except String UserTransaction))
    (x_webhook_token : Option String) (st : ServerState) :
    Except HTTPException BatchResponse × ServerState :=
  match check_token secret x_webhook_token with
  | .error e => (.error e, st)
  | .ok _ =>
    let batch_id := strftime_batch (clock st.tick)
    match batchLoopExc clock batch_id transactions st.received_transactions
      (st.tick + 1) 0 with
    | .error (msg, received, t) =>
      (.error ⟨500, "Error processing batch: " ++ msg⟩,
       { received_transactions := received, tick := t })
    | .ok (received, t, received_count) =>
      (.ok { status := "success"
             message := "Batch of " ++ toString received_count ++
               " transactions received successfully"
             batch_id := batch_id
             total_received := received.length },
       { received_transactions := received, tick := t })

/-- Response body of `GET /webhook/user-transactions`. -/
structure ListResponse where
  total_count : Nat
  last_10_transactions : List StoredTransaction
  last_updated : String
  poc_status : String
deriving DecidableEq

/-- Python's `received_transactions[-10:]` slice: the last `n` elements
(all of them when fewer than `n` are stored). -/
def lastSlice (l : List StoredTransaction) (n : Nat) : List StoredTransaction :=
  l.drop (l.length - n)

/-- `get_received_transactions` (src/mainsecretkey.py:108-116). -/
def get_received_transactions (secret : String) (clock : Nat → DateTime)
    (x_webhook_token : Option String) (st : ServerState) :
    Except HTTPException ListResponse × ServerState :=
  match check_token secret x_webhook_token with
  | .error e => (.error e, st)
  | .ok _ =>
    (.ok { total_count := st.received_transactions.length
           last_10_transactions :=
             if st.received_transactions = [] then []
             else lastSlice st.received_transactions 10
           last_updated := isoformat (clock st.tick)
           poc_status := "active" },
     { received_transactions := st.received_transactions, tick := st.tick + 1 })

/-- Response body of `GET /poc/stats` (two shapes in the source). -/
inductive StatsResponse where
  | waiting (message : String) (total_count : Nat) (status : String)
  | collecting (total_transactions : Nat) (unique_users : Nat)
      (user_list : List String) (first_transaction : String)
      (last_transaction : String) (poc_status : String)
deriving DecidableEq

/-- The comprehension filter `if t.get("usrname")` and projection
`t.get("usrname")`: the username when present and truthy (nonempty). -/
def usernameValue (t : StoredTransaction) : Option String :=
  match t.usrname with
  | none => none
  | some s => if s = "" then none else some s

/-- `poc_statistics` (src/mainsecretkey.py:127-145).  `list(set(users))` is
modelled by `List.dedup` (one concrete list with set semantics: the distinct
elements; Python leaves the order unspecified). -/
def poc_statistics (secret : String) (x_webhook_token : Option String)
    (st : ServerState) : Except HTTPException StatsResponse × ServerState :=
  match check_token secret x_webhook_token with
  | .error e => (.error e, st)
  | .ok _ =>
    if h : st.received_transactions = [] then
      (.ok (.waiting "No transactions received yet" 0 "waiting_for_data"), st)
    else
      let users := st.received_transactions.filterMap usernameValue
      let unique_users := users.dedup
      (.ok (.collecting st.received_transactions.length unique_users.length
        unique_users (st.received_transactions.head h).received_at
        (st.received_transactions.getLast h).received_at "collecting_data"), st)

/-! ### Derived forms and helper lemmas -/

/-- Closed form of the records the batch loop appends: the record built from
each remaining payload, when `len` records are already stored and the clock
tick is `t` at the first remaining payload. -/
def batchRecords (clock : Nat → DateTime) (batch_id : String) :
    List UserTransaction → Nat → Nat → List StoredTransaction
  | [], _, _ => []
  | transaction :: rest, len, t =>
    { authorizer_usrnbr := transaction.authorizer_usrnbr
      creat_usrnbr := transaction.creat_usrnbr
      creat_time := transaction.creat_time
      data := transaction.data
      usrname := transaction.usrname
      received_at := isoformat (clock t)
      batch_id := some batch_id
      poc_id := len + 1 } :: batchRecords clock batch_id rest (len + 1) (t + 1)

/-- The `received_transactions` list left by the batch loop with the
exception boundary, whichever way it ended. -/
def excStore :
    Except (String × List StoredTransaction × Nat)
      (List StoredTransaction × Nat × Nat) → List StoredTransaction
  | .ok (received, _, _) => received
  | .error (_, received, _) => received

/-- The sequence-id invariant of the store: the record at 0-based position `i`
carries `poc_id = i + 1`. -/
def SeqCanonical (l : List StoredTransaction) : Prop :=
  ∀ i r, l[i]? = some r → r.poc_id = i + 1

theorem batchRecords_length (clock : Nat → DateTime) (bid : String)
    (txs : List UserTransaction) : ∀ (len t : Nat),
    (batchRecords clock bid txs len t).length = txs.length := by
  induction txs with
  | nil => intro len t; rfl
  | cons transaction rest ih => intro len t; simp [batchRecords, ih]

theorem batchRecords_getElem (clock : Nat → DateTime) (bid : String)
    (txs : List UserTransaction) : ∀ (len t i : Nat),
    (batchRecords clock bid txs len t)[i]? = (txs[i]?).map
      (fun transaction =>
        { authorizer_usrnbr := transaction.authorizer_usrnbr
          creat_usrnbr := transaction.creat_usrnbr
          creat_time := transaction.creat_time
          data := transaction.data
          usrname := transaction.usrname
          received_at := isoformat (clock (t + i))
          batch_id := some bid
          poc_id := len + i + 1 }) := by
  induction txs with
  | nil => intro len t i; simp [batchRecords]
  | cons transaction rest ih =>
    intro len t i
    cases i with
    | zero => simp [batchRecords]
    | succ i =>
      simp only [batchRecords, List.getElem?_cons_succ]
      rw [ih (len + 1) (t + 1) i]
      have h1 : t + 1 + i = t + (i + 1) := by omega
      have h2 : len + 1 + i + 1 = len + (i + 1) + 1 := by omega
      rw [h1, h2]

theorem batchLoop_eq (clock : Nat → DateTime) (bid : String)
    (txs : List UserTransaction) : ∀ (received : List StoredTransaction)
    (t c : Nat),
    batchLoop clock bid txs received t c
      = (received ++ batchRecords clock bid txs received.length t,
         t + txs.length, c + txs.length) := by
  induction txs with
  | nil => intro received t c; simp [batchLoop, batchRecords]
  | cons transaction rest ih =>
    intro received t c
    rw [batchLoop, ih]
    simp only [Prod.mk.injEq, batchRecords, List.length_append, List.length_cons,
      List.length_nil, List.append_assoc, List.singleton_append, List.cons_append,
      List.nil_append]
    exact ⟨by trivial, by omega, by omega⟩

theorem batchLoopExc_error_eq (clock : Nat → DateTime) (bid msg : String)
    (oks : List UserTransaction)
    (rest : List (Except String UserTransaction)) :
    ∀ (received : List StoredTransaction) (t c : Nat),
    batchLoopExc clock bid (oks.map Except.ok ++ Except.error msg :: rest)
        received t c
      = .error (msg, received ++ batchRecords clock bid oks received.length t,
                t + oks.length) := by
  induction oks with
  | nil => intro received t c; simp [batchLoopExc, batchRecords]
  | cons transaction rest2 ih =>
    intro received t c
    simp only [List.map_cons, List.cons_append]
    rw [batchLoopExc, ih]
    simp only [Except.error.injEq, Prod.mk.injEq, batchRecords,
      List.length_append, List.length_cons, List.length_nil, List.append_assoc,
      List.singleton_append, List.cons_append, List.nil_append]
    exact ⟨by trivial, by trivial, by omega⟩

theorem batchLoopExc_store (clock : Nat → DateTime) (bid : String)
    (es : List (Except String UserTransaction)) :
    ∀ (received : List StoredTransaction) (t c : Nat),
    ∃ oks : List UserTransaction,
      excStore (batchLoopExc clock bid es received t c)
        = received ++ batchRecords clock bid oks received.length t := by
  induction es with
  | nil => intro received t c; exact ⟨[], by simp [batchLoopExc, excStore, batchRecords]⟩
  | cons e rest ih =>
    intro received t c
    cases e with
    | error msg =>
      exact ⟨[], by simp [batchLoopExc, excStore, batchRecords]⟩
    | ok transaction =>
      obtain ⟨oks, hoks⟩ := ih (received ++
        [{ authorizer_usrnbr := transaction.authorizer_usrnbr
           creat_usrnbr := transaction.creat_usrnbr
           creat_time := transaction.creat_time
           data := transaction.data
           usrname := transaction.usrname
           received_at := isoformat (clock t)
           batch_id := some bid
           poc_id := received.length + 1 }]) (t + 1) (c + 1)
      refine ⟨transaction :: oks, ?_⟩
      rw [batchLoopExc, hoks]
      simp only [batchRecords, List.length_append, List.length_cons,
        List.length_nil, List.append_assoc, List.singleton_append,
        List.cons_append, List.nil_append]

theorem batchRecords_poc (clock : Nat → DateTime) (bid : String)
    (txs : List UserTransaction) (len t : Nat) :
    ∀ i r, (batchRecords clock bid txs len t)[i]? = some r →
      r.poc_id = len + i + 1 := by
  intro i r hr
  rw [batchRecords_getElem] at hr
  rcases Option.map_eq_some'.mp hr with ⟨transaction, _, rfl⟩
  rfl

theorem seqCanonical_append {l new : List StoredTransaction}
    (hl : SeqCanonical l)
    (hnew : ∀ i r, new[i]? = some r → r.poc_id = l.length + i + 1) :
    SeqCanonical (l ++ new) := by
  intro i r hr
  rcases lt_or_ge i l.length with hi | hi
  · rw [List.getElem?_append_left hi] at hr
    exact hl i r hr
  · rw [List.getElem?_append_right hi] at hr
    have := hnew (i - l.length) r hr
    omega

theorem seqCanonical_lt {l : List StoredTransaction} (hl : SeqCanonical l) :
    ∀ (i j : Nat) (ri rj : StoredTransaction),
      i < j → l[i]? = some ri → l[j]? = some rj →
      ri.poc_id < rj.poc_id := by
  intro i j ri rj hij hi hj
  rw [hl i ri hi, hl j rj hj]
  omega

theorem receive_user_transaction_new (secret : String) (clock : Nat → DateTime)
    (transaction : UserTransaction) (x : Option String) (st : ServerState) :
    ∃ new, (receive_user_transaction secret clock transaction x st).2.received_transactions
        = st.received_transactions ++ new ∧
      ∀ i r, new[i]? = some r →
        r.poc_id = st.received_transactions.length + i + 1 := by
  cases hct : check_token secret x with
  | error e =>
    refine ⟨[], by simp [receive_user_transaction, hct], ?_⟩
    intro i r hr
    simp at hr
  | ok u =>
    cases u
    refine ⟨[{ authorizer_usrnbr := transaction.authorizer_usrnbr
               creat_usrnbr := transaction.creat_usrnbr
               creat_time := transaction.creat_time
               data := transaction.data
               usrname := transaction.usrname
               received_at := isoformat (clock st.tick)
               batch_id := none
               poc_id := st.received_transactions.length + 1 }],
           by simp [receive_user_transaction, hct], ?_⟩
    intro i r hr
    cases i with
    | zero =>
      rw [List.getElem?_cons_zero] at hr
      injection hr with hr
      rw [← hr]
    | succ i => simp at hr

theorem receive_batch_transactions_new (secret : String) (clock : Nat → DateTime)
    (txs : List UserTransaction) (x : Option String) (st : ServerState) :
    ∃ new, (receive_batch_transactions secret clock txs x st).2.received_transactions
        = st.received_transactions ++ new ∧
      ∀ i r, new[i]? = some r →
        r.poc_id = st.received_transactions.length + i + 1 := by
  cases hct : check_token secret x with
  | error e =>
    refine ⟨[], by simp [receive_batch_transactions, hct], ?_⟩
    intro i r hr
    simp at hr
  | ok u =>
    cases u
    refine ⟨batchRecords clock (strftime_batch (clock st.tick)) txs
        st.received_transactions.length (st.tick + 1), ?_,
      batchRecords_poc _ _ _ _ _⟩
    simp only [receive_batch_transactions, hct]
    rw [batchLoop_eq]

theorem receive_batch_transactions_exc_store (secret : String)
    (clock : Nat → DateTime) (etxs : List (Except String UserTransaction))
    (x : Option String) (st : ServerState)
    (h : check_token secret x = .ok ()) :
    (receive_batch_transactions_exc secret clock etxs x st).2.received_transactions
      = excStore (batchLoopExc clock (strftime_batch (clock st.tick)) etxs
          st.received_transactions (st.tick + 1) 0) := by
  simp only [receive_batch_transactions_exc, h]
  cases hbl : batchLoopExc clock (strftime_batch (clock st.tick)) etxs
      st.received_transactions (st.tick + 1) 0 with
  | error p => rcases p with ⟨msg, received, t⟩; simp [excStore]
  | ok p => rcases p with ⟨received, t, c⟩; simp [excStore]

theorem receive_batch_transactions_exc_new (secret : String)
    (clock : Nat → DateTime) (etxs : List (Except String UserTransaction))
    (x : Option String) (st : ServerState) :
    ∃ new, (receive_batch_transactions_exc secret clock etxs x st).2.received_transactions
        = st.received_transactions ++ new ∧
      ∀ i r, new[i]? = some r →
        r.poc_id = st.received_transactions.length + i + 1 := by
  cases hct : check_token secret x with
  | error e =>
    refine ⟨[], by simp [receive_batch_transactions_exc, hct], ?_⟩
    intro i r hr
    simp at hr
  | ok u =>
    cases u
    obtain ⟨oks, hoks⟩ := batchLoopExc_store clock (strftime_batch (clock st.tick))
      etxs st.received_transactions (st.tick + 1) 0
    refine ⟨batchRecords clock (strftime_batch (clock st.tick)) oks
        st.received_transactions.length (st.tick + 1), ?_,
      batchRecords_poc _ _ _ _ _⟩
    rw [receive_batch_transactions_exc_store secret clock etxs x st hct, hoks]

theorem get_received_transactions_store (secret : String)
    (clock : Nat → DateTime) (x : Option String) (st : ServerState) :
    (get_received_transactions secret clock x st).2.received_transactions
      = st.received_transactions := by
  cases hct : check_token secret x <;> simp [get_received_transactions, hct]

theorem poc_statistics_store (secret : String) (x : Option String)
    (st : ServerState) : (poc_statistics secret x st).2 = st := by
  cases hct : check_token secret x with
  | error e => simp [poc_statistics, hct]
  | ok u =>
    cases u
    by_cases he : st.received_transactions = [] <;>
      simp [poc_statistics, hct, he]

theorem receive_batch_store_getElem (secret : String) (clock : Nat → DateTime)
    (txs : List UserTransaction) (x : Option String) (st : ServerState)
    (h : check_token secret x = .ok ()) (i : Nat) :
    ((receive_batch_transactions secret clock txs x st).2.received_transactions)[st.received_transactions.length + i]?
      = (txs[i]?).map (fun transaction =>
          { authorizer_usrnbr := transaction.authorizer_usrnbr
            creat_usrnbr := transaction.creat_usrnbr
            creat_time := transaction.creat_time
            data := transaction.data
            usrname := transaction.usrname
            received_at := isoformat (clock (st.tick + 1 + i))
            batch_id := some (strftime_batch (clock st.tick))
            poc_id := st.received_transactions.length + i + 1 }) := by
  simp only [receive_batch_transactions, h]
  rw [batchLoop_eq]
  dsimp only
  rw [List.getElem?_append_right (Nat.le_add_right _ _), Nat.add_sub_cancel_left,
    batchRecords_getElem]

/-! ### Concrete sample inputs (used by the witnesses) -/

/-- A sample clock: second field equals the tick. -/
def clk0 : Nat → DateTime := fun n => ⟨2025, 1, 2, 3, 4, n, 0⟩

/-- A constant sample clock. -/
def clkC : Nat → DateTime := fun _ => ⟨2025, 1, 2, 3, 4, 5, 0⟩

/-- A sample payload. -/
def tx0 : UserTransaction := { usrname := some "alice", creat_usrnbr := some 7 }

/-- The initial server state: empty store, tick zero. -/
def st0 : ServerState := ⟨[], 0⟩

/-! ### Claims -/

/-- C1: for every protected operation, token validation follows the exact
trichotomy: empty configured secret fails with `ServerMisconfigured`
(HTTP 500) regardless of the presented credential and before any comparison;
otherwise an absent or not-exactly-equal credential fails with `Unauthorized`
(HTTP 401); otherwise the check succeeds with no side effects. -/
theorem check_token_trichotomy (secret : String) (x : Option String) :
    (secret = "" → check_token secret x
      = .error ⟨500, "Server misconfiguration: WEBHOOK_TOKEN missing"⟩) ∧
    (secret ≠ "" → x ≠ some secret → check_token secret x
      = .error ⟨401, "Unauthorized"⟩) ∧
    (secret ≠ "" → x = some secret → check_token secret x = .ok ()) := by
  refine ⟨fun hs => ?_, fun hs hx => ?_, fun hs hx => ?_⟩
  · simp [check_token, hs]
  · simp [check_token, hs, hx]
  · subst hx
    simp [check_token, truthy, hs]

/-- Witness for C1: with secret `"abc123"`, an absent header is rejected 401. -/
theorem check_token_trichotomy_witness :
    check_token "abc123" none = .error ⟨401, "Unauthorized"⟩ :=
  (check_token_trichotomy "abc123" none).2.1 (by decide) (by decide)

/-- C2: whenever the token check fails (misconfigured or unauthorized), every
protected operation returns exactly that error and leaves the transaction
store untouched: no record appended, no sequence id consumed, no data
disclosed (the whole result is a function of the failure alone). -/
theorem token_failure_no_effect (secret : String) (clock : Nat → DateTime)
    (tx : UserTransaction) (txs : List UserTransaction)
    (etxs : List (Except String UserTransaction)) (x : Option String)
    (st : ServerState) (e : HTTPException)
    (h : check_token secret x = .error e) :
    receive_user_transaction secret clock tx x st = (.error e, st) ∧
    receive_batch_transactions secret clock txs x st = (.error e, st) ∧
    receive_batch_transactions_exc secret clock etxs x st = (.error e, st) ∧
    get_received_transactions secret clock x st = (.error e, st) ∧
    poc_statistics secret x st = (.error e, st) := by
  refine ⟨?_, ?_, ?_, ?_, ?_⟩ <;>
    simp [receive_user_transaction, receive_batch_transactions,
      receive_batch_transactions_exc, get_received_transactions,
      poc_statistics, h]

/-- Witness for C2: a wrong token against secret `"abc123"` on the sample
state leaves everything unchanged and yields 401 on all four operations. -/
theorem token_failure_no_effect_witness :
    receive_user_transaction "abc123" clk0 tx0 (some "wrong") st0
      = (.error ⟨401, "Unauthorized"⟩, st0) ∧
    receive_batch_transactions "abc123" clk0 [tx0] (some "wrong") st0
      = (.error ⟨401, "Unauthorized"⟩, st0) ∧
    receive_batch_transactions_exc "abc123" clk0 [Except.ok tx0] (some "wrong") st0
      = (.error ⟨401, "Unauthorized"⟩, st0) ∧
    get_received_transactions "abc123" clk0 (some "wrong") st0
      = (.error ⟨401, "Unauthorized"⟩, st0) ∧
    poc_statistics "abc123" (some "wrong") st0
      = (.error ⟨401, "Unauthorized"⟩, st0) :=
  token_failure_no_effect "abc123" clk0 tx0 [tx0] [Except.ok tx0]
    (some "wrong") st0 ⟨401, "Unauthorized"⟩ rfl

/-- C3: for every store state satisfying the sequence invariant, every
operation only appends (the old store is a prefix of the new one; reads leave
it untouched), the invariant `poc_id = position + 1` (= count before append
+ 1) is preserved, the invariant makes sequence ids strictly increasing and
pairwise distinct in append order, and a successful single submission appends
the record with server-assigned `received_at` and `poc_id` regardless of the
caller-supplied payload. -/
theorem store_append_only_sequence (secret : String) (clock : Nat → DateTime)
    (tx : UserTransaction) (txs : List UserTransaction)
    (etxs : List (Except String UserTransaction)) (x : Option String)
    (st : ServerState) (hc : SeqCanonical st.received_transactions) :
    (∃ new, (receive_user_transaction secret clock tx x st).2.received_transactions
        = st.received_transactions ++ new) ∧
    (∃ new, (receive_batch_transactions secret clock txs x st).2.received_transactions
        = st.received_transactions ++ new) ∧
    (∃ new, (receive_batch_transactions_exc secret clock etxs x st).2.received_transactions
        = st.received_transactions ++ new) ∧
    (get_received_transactions secret clock x st).2.received_transactions
      = st.received_transactions ∧
    (poc_statistics secret x st).2.received_transactions
      = st.received_transactions ∧
    SeqCanonical (receive_user_transaction secret clock tx x st).2.received_transactions ∧
    SeqCanonical (receive_batch_transactions secret clock txs x st).2.received_transactions ∧
    SeqCanonical (receive_batch_transactions_exc secret clock etxs x st).2.received_transactions ∧
    (check_token secret x = .ok () →
      (receive_user_transaction secret clock tx x st).2.received_transactions
        = st.received_transactions ++
          [{ authorizer_usrnbr := tx.authorizer_usrnbr
             creat_usrnbr := tx.creat_usrnbr
             creat_time := tx.creat_time
             data := tx.data
             usrname := tx.usrname
             received_at := isoformat (clock st.tick)
             batch_id := none
             poc_id := st.received_transactions.length + 1 }]) ∧
    (∀ l, SeqCanonical l → ∀ (i j : Nat) (ri rj : StoredTransaction),
      i < j → l[i]? = some ri → l[j]? = some rj →
        ri.poc_id < rj.poc_id ∧ ri.poc_id ≠ rj.poc_id) := by
  obtain ⟨n1, hn1, hp1⟩ := receive_user_transaction_new secret clock tx x st
  obtain ⟨n2, hn2, hp2⟩ := receive_batch_transactions_new secret clock txs x st
  obtain ⟨n3, hn3, hp3⟩ := receive_batch_transactions_exc_new secret clock etxs x st
  refine ⟨⟨n1, hn1⟩, ⟨n2, hn2⟩, ⟨n3, hn3⟩,
    get_received_transactions_store secret clock x st,
    by rw [poc_statistics_store], ?_, ?_, ?_, ?_, ?_⟩
  · rw [hn1]; exact seqCanonical_append hc hp1
  · rw [hn2]; exact seqCanonical_append hc hp2
  · rw [hn3]; exact seqCanonical_append hc hp3
  · intro h
    simp [receive_user_transaction, h]
  · intro l hl i j ri rj hij hi hj
    have hlt := seqCanonical_lt hl i j ri rj hij hi hj
    exact ⟨hlt, by omega⟩

/-- Witness for C3 at the empty canonical store. -/
theorem store_append_only_sequence_witness :
    (∃ new, (receive_user_transaction "k" clkC ({} : UserTransaction) none st0).2.received_transactions
        = st0.received_transactions ++ new) ∧
    (∃ new, (receive_batch_transactions "k" clkC [] none st0).2.received_transactions
        = st0.received_transactions ++ new) ∧
    (∃ new, (receive_batch_transactions_exc "k" clkC [] none st0).2.received_transactions
        = st0.received_transactions ++ new) ∧
    (get_received_transactions "k" clkC none st0).2.received_transactions
      = st0.received_transactions ∧
    (poc_statistics "k" none st0).2.received_transactions
      = st0.received_transactions ∧
    SeqCanonical (receive_user_transaction "k" clkC ({} : UserTransaction) none st0).2.received_transactions ∧
    SeqCanonical (receive_batch_transactions "k" clkC [] none st0).2.received_transactions ∧
    SeqCanonical (receive_batch_transactions_exc "k" clkC [] none st0).2.received_transactions ∧
    (check_token "k" none = .ok () →
      (receive_user_transaction "k" clkC ({} : UserTransaction) none st0).2.received_transactions
        = st0.received_transactions ++
          [{ authorizer_usrnbr := ({} : UserTransaction).authorizer_usrnbr
             creat_usrnbr := ({} : UserTransaction).creat_usrnbr
             creat_time := ({} : UserTransaction).creat_time
             data := ({} : UserTransaction).data
             usrname := ({} : UserTransaction).usrname
             received_at := isoformat (clkC st0.tick)
             batch_id := none
             poc_id := st0.received_transactions.length + 1 }]) ∧
    (∀ l, SeqCanonical l → ∀ (i j : Nat) (ri rj : StoredTransaction),
      i < j → l[i]? = some ri → l[j]? = some rj →
        ri.poc_id < rj.poc_id ∧ ri.poc_id ≠ rj.poc_id) :=
  store_append_only_sequence "k" clkC ({} : UserTransaction) [] [] none st0
    (by intro i r hr; simp [st0] at hr)

/-- C4: an authenticated single submission appends exactly one record (the
count grows by one) and acknowledges with status `success`, the newly
assigned sequence id, the submitted username, and that record's
server-assigned `received_at`. -/
theorem receive_user_transaction_ack (secret : String) (clock : Nat → DateTime)
    (tx : UserTransaction) (x : Option String) (st : ServerState)
    (h : check_token secret x = .ok ()) :
    (receive_user_transaction secret clock tx x st).2.received_transactions
      = st.received_transactions ++
        [{ authorizer_usrnbr := tx.authorizer_usrnbr
           creat_usrnbr := tx.creat_usrnbr
           creat_time := tx.creat_time
           data := tx.data
           usrname := tx.usrname
           received_at := isoformat (clock st.tick)
           batch_id := none
           poc_id := st.received_transactions.length + 1 }] ∧
    (receive_user_transaction secret clock tx x st).2.received_transactions.length
      = st.received_transactions.length + 1 ∧
    (receive_user_transaction secret clock tx x st).1
      = .ok { status := "success"
              message := "User transaction received successfully"
              poc_id := st.received_transactions.length + 1
              user := tx.usrname
              received_at := isoformat (clock st.tick) } := by
  refine ⟨?_, ?_, ?_⟩ <;> simp [receive_user_transaction, h]

/-- Witness for C4: the spec's own example (secret `"abc123"`, alice). -/
theorem receive_user_transaction_ack_witness :
    (receive_user_transaction "abc123" clk0 tx0 (some "abc123") st0).2.received_transactions
      = st0.received_transactions ++
        [{ authorizer_usrnbr := tx0.authorizer_usrnbr
           creat_usrnbr := tx0.creat_usrnbr
           creat_time := tx0.creat_time
           data := tx0.data
           usrname := tx0.usrname
           received_at := isoformat (clk0 st0.tick)
           batch_id := none
           poc_id := st0.received_transactions.length + 1 }] ∧
    (receive_user_transaction "abc123" clk0 tx0 (some "abc123") st0).2.received_transactions.length
      = st0.received_transactions.length + 1 ∧
    (receive_user_transaction "abc123" clk0 tx0 (some "abc123") st0).1
      = .ok { status := "success"
              message := "User transaction received successfully"
              poc_id := st0.received_transactions.length + 1
              user := tx0.usrname
              received_at := isoformat (clk0 st0.tick) } :=
  receive_user_transaction_ack "abc123" clk0 tx0 (some "abc123") st0 rfl

/-- C9: every caller-suppliable field is individually optional, and a field
absent from the input stays absent in the stored record (no defaulting to
sentinel values): the appended record carries exactly the submitted
optional fields. -/
theorem single_fields_preserved (secret : String) (clock : Nat → DateTime)
    (tx : UserTransaction) (x : Option String) (st : ServerState)
    (h : check_token secret x = .ok ()) :
    ∃ r : StoredTransaction,
      (receive_user_transaction secret clock tx x st).2.received_transactions
        = st.received_transactions ++ [r] ∧
      r.authorizer_usrnbr = tx.authorizer_usrnbr ∧
      r.creat_usrnbr = tx.creat_usrnbr ∧
      r.creat_time = tx.creat_time ∧
      r.data = tx.data ∧
      r.usrname = tx.usrname ∧
      (tx.authorizer_usrnbr = none → r.authorizer_usrnbr = none) ∧
      (tx.creat_usrnbr = none → r.creat_usrnbr = none) ∧
      (tx.creat_time = none → r.creat_time = none) ∧
      (tx.data = none → r.data = none) ∧
      (tx.usrname = none → r.usrname = none) := by
  refine ⟨{ authorizer_usrnbr := tx.authorizer_usrnbr
            creat_usrnbr := tx.creat_usrnbr
            creat_time := tx.creat_time
            data := tx.data
            usrname := tx.usrname
            received_at := isoformat (clock st.tick)
            batch_id := none
            poc_id := st.received_transactions.length + 1 },
    by simp [receive_user_transaction, h], rfl, rfl, rfl, rfl, rfl,
    fun h1 => h1, fun h1 => h1, fun h1 => h1, fun h1 => h1, fun h1 => h1⟩

/-- Witness for C9: submitting the all-absent payload stores it unchanged. -/
theorem single_fields_preserved_witness :
    ∃ r : StoredTransaction,
      (receive_user_transaction "abc123" clk0 ({} : UserTransaction)
          (some "abc123") st0).2.received_transactions
        = st0.received_transactions ++ [r] ∧
      r.authorizer_usrnbr = ({} : UserTransaction).authorizer_usrnbr ∧
      r.creat_usrnbr = ({} : UserTransaction).creat_usrnbr ∧
      r.creat_time = ({} : UserTransaction).creat_time ∧
      r.data = ({} : UserTransaction).data ∧
      r.usrname = ({} : UserTransaction).usrname ∧
      (({} : UserTransaction).authorizer_usrnbr = none → r.authorizer_usrnbr = none) ∧
      (({} : UserTransaction).creat_usrnbr = none → r.creat_usrnbr = none) ∧
      (({} : UserTransaction).creat_time = none → r.creat_time = none) ∧
      (({} : UserTransaction).data = none → r.data = none) ∧
      (({} : UserTransaction).usrname = none → r.usrname = none) :=
  single_fields_preserved "abc123" clk0 ({} : UserTransaction)
    (some "abc123") st0 rfl

/-- C5: an authenticated batch of K payloads computes one batch id (formatted
`YYYYMMDD_HHMMSS` from the clock at the start of the call) shared by all K
appended records, appends the payloads in input order with K distinct freshly
assigned sequence ids, grows the count by exactly K, and accepts the empty
batch with a count of 0 and no store mutation. -/
theorem receive_batch_spec (secret : String) (clock : Nat → DateTime)
    (txs : List UserTransaction) (x : Option String) (st : ServerState)
    (h : check_token secret x = .ok ()) :
    (receive_batch_transactions secret clock txs x st).1
      = .ok { status := "success"
              message := "Batch of " ++ toString txs.length ++
                " transactions received successfully"
              batch_id := strftime_batch (clock st.tick)
              total_received := st.received_transactions.length + txs.length } ∧
    (receive_batch_transactions secret clock txs x st).2.received_transactions.length
      = st.received_transactions.length + txs.length ∧
    (∀ (i : Nat) (hi : i < txs.length),
      ((receive_batch_transactions secret clock txs x st).2.received_transactions)[st.received_transactions.length + i]?
        = some { authorizer_usrnbr := (txs.get ⟨i, hi⟩).authorizer_usrnbr
                 creat_usrnbr := (txs.get ⟨i, hi⟩).creat_usrnbr
                 creat_time := (txs.get ⟨i, hi⟩).creat_time
                 data := (txs.get ⟨i, hi⟩).data
                 usrname := (txs.get ⟨i, hi⟩).usrname
                 received_at := isoformat (clock (st.tick + 1 + i))
                 batch_id := some (strftime_batch (clock st.tick))
                 poc_id := st.received_transactions.length + i + 1 }) ∧
    (∀ (i j : Nat) (ri rj : StoredTransaction), i ≠ j →
      ((receive_batch_transactions secret clock txs x st).2.received_transactions)[st.received_transactions.length + i]?
        = some ri →
      ((receive_batch_transactions secret clock txs x st).2.received_transactions)[st.received_transactions.length + j]?
        = some rj →
      ri.poc_id ≠ rj.poc_id) ∧
    (txs = [] →
      (receive_batch_transactions secret clock txs x st).2.received_transactions
        = st.received_transactions ∧
      (receive_batch_transactions secret clock txs x st).1
        = .ok { status := "success"
                message := "Batch of 0 transactions received successfully"
                batch_id := strftime_batch (clock st.tick)
                total_received := st.received_transactions.length }) := by
  refine ⟨?_, ?_, ?_, ?_, ?_⟩
  · simp only [receive_batch_transactions, h]
    rw [batchLoop_eq]
    dsimp only
    rw [Nat.zero_add]
    simp [batchRecords_length]
  · simp only [receive_batch_transactions, h]
    rw [batchLoop_eq]
    dsimp only
    simp [batchRecords_length]
  · intro i hi
    rw [receive_batch_store_getElem secret clock txs x st h i,
      List.getElem?_eq_getElem hi]
    simp
  · intro i j ri rj hij hi hj
    rw [receive_batch_store_getElem secret clock txs x st h i] at hi
    rw [receive_batch_store_getElem secret clock txs x st h j] at hj
    obtain ⟨ta, -, hra⟩ := Option.map_eq_some'.mp hi
    obtain ⟨tb, -, hrb⟩ := Option.map_eq_some'.mp hj
    rw [← hra, ← hrb]
    simp only []
    omega
  · rintro rfl
    constructor
    · simp only [receive_batch_transactions, h]
      rw [batchLoop_eq]
      simp [batchRecords]
    · simp only [receive_batch_transactions, h]
      rw [batchLoop_eq]
      simp [batchRecords]
      rfl

/-- Witness for C5: batch of one payload against secret `"abc123"`. -/
theorem receive_batch_spec_witness :
    (receive_batch_transactions "abc123" clk0 [tx0] (some "abc123") st0).1
      = .ok { status := "success"
              message := "Batch of " ++ toString [tx0].length ++
                " transactions received successfully"
              batch_id := strftime_batch (clk0 st0.tick)
              total_received := st0.received_transactions.length + [tx0].length } ∧
    (receive_batch_transactions "abc123" clk0 [tx0] (some "abc123") st0).2.received_transactions.length
      = st0.received_transactions.length + [tx0].length ∧
    (∀ (i : Nat) (hi : i < [tx0].length),
      ((receive_batch_transactions "abc123" clk0 [tx0] (some "abc123") st0).2.received_transactions)[st0.received_transactions.length + i]?
        = some { authorizer_usrnbr := ([tx0].get ⟨i, hi⟩).authorizer_usrnbr
                 creat_usrnbr := ([tx0].get ⟨i, hi⟩).creat_usrnbr
                 creat_time := ([tx0].get ⟨i, hi⟩).creat_time
                 data := ([tx0].get ⟨i, hi⟩).data
                 usrname := ([tx0].get ⟨i, hi⟩).usrname
                 received_at := isoformat (clk0 (st0.tick + 1 + i))
                 batch_id := some (strftime_batch (clk0 st0.tick))
                 poc_id := st0.received_transactions.length + i + 1 }) ∧
    (∀ (i j : Nat) (ri rj : StoredTransaction), i ≠ j →
      ((receive_batch_transactions "abc123" clk0 [tx0] (some "abc123") st0).2.received_transactions)[st0.received_transactions.length + i]?
        = some ri →
      ((receive_batch_transactions "abc123" clk0 [tx0] (some "abc123") st0).2.received_transactions)[st0.received_transactions.length + j]?
        = some rj →
      ri.poc_id ≠ rj.poc_id) ∧
    ([tx0] = ([] : List UserTransaction) →
      (receive_batch_transactions "abc123" clk0 [tx0] (some "abc123") st0).2.received_transactions
        = st0.received_transactions ∧
      (receive_batch_transactions "abc123" clk0 [tx0] (some "abc123") st0).1
        = .ok { status := "success"
                message := "Batch of 0 transactions received successfully"
                batch_id := strftime_batch (clk0 st0.tick)
                total_received := st0.received_transactions.length }) :=
  receive_batch_spec "abc123" clk0 [tx0] (some "abc123") st0 rfl

/-- C6: when processing of a batch record raises after j earlier records were
appended, the whole call reports HTTP 500 with the underlying cause appended
to "Error processing batch: ", and the j already-appended records remain in
the store (no rollback). -/
theorem batch_midfailure_keeps_appended (secret : String)
    (clock : Nat → DateTime) (oks : List UserTransaction) (msg : String)
    (rest : List (Except String UserTransaction)) (x : Option String)
    (st : ServerState) (h : check_token secret x = .ok ()) :
    receive_batch_transactions_exc secret clock
        (oks.map Except.ok ++ Except.error msg :: rest) x st
      = (.error ⟨500, "Error processing batch: " ++ msg⟩,
         { received_transactions := st.received_transactions ++
             batchRecords clock (strftime_batch (clock st.tick)) oks
               st.received_transactions.length (st.tick + 1)
           tick := st.tick + 1 + oks.length }) ∧
    (receive_batch_transactions_exc secret clock
        (oks.map Except.ok ++ Except.error msg :: rest) x st).2.received_transactions.length
      = st.received_transactions.length + oks.length := by
  have hb := batchLoopExc_error_eq clock (strftime_batch (clock st.tick)) msg
    oks rest st.received_transactions (st.tick + 1) 0
  constructor
  · simp only [receive_batch_transactions_exc, h]
    rw [hb]
  · simp only [receive_batch_transactions_exc, h]
    rw [hb]
    simp [batchRecords_length]

/-- Witness for C6: one record appended, then a failure with cause "boom". -/
theorem batch_midfailure_keeps_appended_witness :
    receive_batch_transactions_exc "abc123" clk0
        ([tx0].map Except.ok ++ Except.error "boom" :: [Except.ok tx0])
        (some "abc123") st0
      = (.error ⟨500, "Error processing batch: " ++ "boom"⟩,
         { received_transactions := st0.received_transactions ++
             batchRecords clk0 (strftime_batch (clk0 st0.tick)) [tx0]
               st0.received_transactions.length (st0.tick + 1)
           tick := st0.tick + 1 + [tx0].length }) ∧
    (receive_batch_transactions_exc "abc123" clk0
        ([tx0].map Except.ok ++ Except.error "boom" :: [Except.ok tx0])
        (some "abc123") st0).2.received_transactions.length
      = st0.received_transactions.length + [tx0].length :=
  batch_midfailure_keeps_appended "abc123" clk0 [tx0] "boom" [Except.ok tx0]
    (some "abc123") st0 rfl

theorem dedup_toFinset_eq (l : List String) :
    l.dedup.toFinset = l.toFinset :=
  List.toFinset.ext_iff.mpr (fun _ => List.mem_dedup)

/-- A username produced by the comprehension filter is never empty. -/
theorem usernameValue_ne_empty {t : StoredTransaction} {s : String}
    (hs : usernameValue t = some s) : s ≠ "" := by
  unfold usernameValue at hs
  cases ht : t.usrname with
  | none => rw [ht] at hs; cases hs
  | some v =>
    rw [ht] at hs
    by_cases hv : v = ""
    · simp [hv] at hs
    · simp [hv] at hs
      subst hs
      exact hv

/-- A sample stored record (as left by the spec's example first call). -/
def rec1 : StoredTransaction :=
  { authorizer_usrnbr := none
    creat_usrnbr := some 7
    creat_time := none
    data := none
    usrname := some "alice"
    received_at := "2025-01-02T03:04:00"
    batch_id := none
    poc_id := 1 }

/-- A sample server state holding one record. -/
def st1 : ServerState := ⟨[rec1], 1⟩

/-- C7: the authenticated list-recent operation returns the last
min(10, count) stored records in original append order — a suffix of the full
append order — and the empty store yields the empty sequence, never an
error. -/
theorem list_recent_spec (secret : String) (clock : Nat → DateTime)
    (x : Option String) (st : ServerState)
    (h : check_token secret x = .ok ()) :
    ∃ resp : ListResponse,
      (get_received_transactions secret clock x st).1 = .ok resp ∧
      resp.total_count = st.received_transactions.length ∧
      resp.last_10_transactions
        = st.received_transactions.drop (st.received_transactions.length - 10) ∧
      resp.last_10_transactions.length = min 10 st.received_transactions.length ∧
      (∃ pre, st.received_transactions = pre ++ resp.last_10_transactions) ∧
      (st.received_transactions = [] → resp.last_10_transactions = []) := by
  have h3 : (if st.received_transactions = [] then []
        else lastSlice st.received_transactions 10)
      = st.received_transactions.drop (st.received_transactions.length - 10) := by
    by_cases he : st.received_transactions = [] <;> simp [he, lastSlice]
  refine ⟨{ total_count := st.received_transactions.length
            last_10_transactions := if st.received_transactions = [] then []
              else lastSlice st.received_transactions 10
            last_updated := isoformat (clock st.tick)
            poc_status := "active" },
    by simp [get_received_transactions, h], rfl, h3, ?_, ?_, ?_⟩
  · rw [h3, List.length_drop]
    omega
  · refine ⟨st.received_transactions.take (st.received_transactions.length - 10), ?_⟩
    rw [h3]
    exact (List.take_append_drop _ _).symm
  · intro he
    simp [he]

/-- Witness for C7 at the one-record state. -/
theorem list_recent_spec_witness :
    ∃ resp : ListResponse,
      (get_received_transactions "abc123" clk0 (some "abc123") st1).1 = .ok resp ∧
      resp.total_count = st1.received_transactions.length ∧
      resp.last_10_transactions
        = st1.received_transactions.drop (st1.received_transactions.length - 10) ∧
      resp.last_10_transactions.length = min 10 st1.received_transactions.length ∧
      (∃ pre, st1.received_transactions = pre ++ resp.last_10_transactions) ∧
      (st1.received_transactions = [] → resp.last_10_transactions = []) :=
  list_recent_spec "abc123" clk0 (some "abc123") st1 rfl

/-- C8: authenticated statistics returns the fixed waiting message on an
empty store; on a non-empty store it reports the number of distinct non-empty
usernames, a duplicate-free user list with set semantics over exactly those
usernames, the `received_at` of the earliest and of the most recent record,
and status `collecting_data`. -/
theorem stats_spec (secret : String) (x : Option String) (st : ServerState)
    (h : check_token secret x = .ok ()) :
    (st.received_transactions = [] →
      (poc_statistics secret x st).1
        = .ok (.waiting "No transactions received yet" 0 "waiting_for_data")) ∧
    (∀ hne : st.received_transactions ≠ [],
      (poc_statistics secret x st).1
        = .ok (.collecting st.received_transactions.length
            ((st.received_transactions.filterMap usernameValue).toFinset.card)
            ((st.received_transactions.filterMap usernameValue).dedup)
            (st.received_transactions.head hne).received_at
            (st.received_transactions.getLast hne).received_at
            "collecting_data") ∧
      ((st.received_transactions.filterMap usernameValue).dedup).Nodup ∧
      ((st.received_transactions.filterMap usernameValue).dedup).toFinset
        = (st.received_transactions.filterMap usernameValue).toFinset ∧
      (∀ s, s ∈ (st.received_transactions.filterMap usernameValue).dedup →
        s ≠ "")) := by
  constructor
  · intro he
    simp [poc_statistics, h, he]
  · intro hne
    refine ⟨?_, List.nodup_dedup _, dedup_toFinset_eq _, ?_⟩
    · simp only [poc_statistics, h]
      rw [dif_neg hne]
      dsimp only
      rw [List.card_toFinset]
    · intro s hs
      rw [List.mem_dedup] at hs
      obtain ⟨t, -, hv⟩ := List.mem_filterMap.mp hs
      exact usernameValue_ne_empty hv

/-- Witness for C8 at the one-record state. -/
theorem stats_spec_witness :
    (st1.received_transactions = [] →
      (poc_statistics "abc123" (some "abc123") st1).1
        = .ok (.waiting "No transactions received yet" 0 "waiting_for_data")) ∧
    (∀ hne : st1.received_transactions ≠ [],
      (poc_statistics "abc123" (some "abc123") st1).1
        = .ok (.collecting st1.received_transactions.length
            ((st1.received_transactions.filterMap usernameValue).toFinset.card)
            ((st1.received_transactions.filterMap usernameValue).dedup)
            (st1.received_transactions.head hne).received_at
            (st1.received_transactions.getLast hne).received_at
            "collecting_data") ∧
      ((st1.received_transactions.filterMap usernameValue).dedup).Nodup ∧
      ((st1.received_transactions.filterMap usernameValue).dedup).toFinset
        = (st1.received_transactions.filterMap usernameValue).toFinset ∧
      (∀ s, s ∈ (st1.received_transactions.filterMap usernameValue).dedup →
        s ≠ "")) :=
  stats_spec "abc123" (some "abc123") st1 rfl

/-- C10: in an authenticated batch, each appended record's `received_at` is
read from the clock individually at that record's append step inside the loop
(tick `start + 1 + i`, after the batch id's own clock read at tick `start`),
not copied from the shared batch timestamp — so records share one batch id
but each carries its own timestamp — and when the rendered clock is monotone
the `received_at` values are non-decreasing in input order. -/
theorem batch_received_at_per_record (secret : String) (clock : Nat → DateTime)
    (txs : List UserTransaction) (x : Option String) (st : ServerState)
    (h : check_token secret x = .ok ()) :
    (∀ (i : Nat) (hi : i < txs.length),
      ((receive_batch_transactions secret clock txs x st).2.received_transactions)[st.received_transactions.length + i]?
        = some { authorizer_usrnbr := (txs.get ⟨i, hi⟩).authorizer_usrnbr
                 creat_usrnbr := (txs.get ⟨i, hi⟩).creat_usrnbr
                 creat_time := (txs.get ⟨i, hi⟩).creat_time
                 data := (txs.get ⟨i, hi⟩).data
                 usrname := (txs.get ⟨i, hi⟩).usrname
                 received_at := isoformat (clock (st.tick + 1 + i))
                 batch_id := some (strftime_batch (clock st.tick))
                 poc_id := st.received_transactions.length + i + 1 }) ∧
    ((∀ a b : Nat, a ≤ b → isoformat (clock a) ≤ isoformat (clock b)) →
      ∀ (i j : Nat) (ri rj : StoredTransaction), i ≤ j →
        ((receive_batch_transactions secret clock txs x st).2.received_transactions)[st.received_transactions.length + i]?
          = some ri →
        ((receive_batch_transactions secret clock txs x st).2.received_transactions)[st.received_transactions.length + j]?
          = some rj →
        ri.received_at ≤ rj.received_at) := by
  constructor
  · intro i hi
    rw [receive_batch_store_getElem secret clock txs x st h i,
      List.getElem?_eq_getElem hi]
    simp
  · intro hmono i j ri rj hij hi hj
    rw [receive_batch_store_getElem secret clock txs x st h i] at hi
    rw [receive_batch_store_getElem secret clock txs x st h j] at hj
    obtain ⟨ta, -, hra⟩ := Option.map_eq_some'.mp hi
    obtain ⟨tb, -, hrb⟩ := Option.map_eq_some'.mp hj
    rw [← hra, ← hrb]
    exact hmono _ _ (by omega)

/-- Witness for C10 with the constant clock (monotone after rendering). -/
theorem batch_received_at_per_record_witness :
    (∀ (i : Nat) (hi : i < [tx0, tx0].length),
      ((receive_batch_transactions "abc123" clkC [tx0, tx0] (some "abc123") st0).2.received_transactions)[st0.received_transactions.length + i]?
        = some { authorizer_usrnbr := ([tx0, tx0].get ⟨i, hi⟩).authorizer_usrnbr
                 creat_usrnbr := ([tx0, tx0].get ⟨i, hi⟩).creat_usrnbr
                 creat_time := ([tx0, tx0].get ⟨i, hi⟩).creat_time
                 data := ([tx0, tx0].get ⟨i, hi⟩).data
                 usrname := ([tx0, tx0].get ⟨i, hi⟩).usrname
                 received_at := isoformat (clkC (st0.tick + 1 + i))
                 batch_id := some (strftime_batch (clkC st0.tick))
                 poc_id := st0.received_transactions.length + i + 1 }) ∧
    ((∀ a b : Nat, a ≤ b → isoformat (clkC a) ≤ isoformat (clkC b)) →
      ∀ (i j : Nat) (ri rj : StoredTransaction), i ≤ j →
        ((receive_batch_transactions "abc123" clkC [tx0, tx0] (some "abc123") st0).2.received_transactions)[st0.received_transactions.length + i]?
          = some ri →
        ((receive_batch_transactions "abc123" clkC [tx0, tx0] (some "abc123") st0).2.received_transactions)[st0.received_transactions.length + j]?
          = some rj →
        ri.received_at ≤ rj.received_at) :=
  batch_received_at_per_record "abc123" clkC [tx0, tx0] (some "abc123") st0 rfl

end Webhook
